import Mathlib

/-!
Shallow embedding of the CodePathfinder agent workflow orchestrator
(`backend/workflows/agent_workflow.py`) and, for the Preparation stage,
of `backend/agents/preparation/preparation_agent.py` together with the
GitHub tool wrappers it calls (`backend/tools/github_tools.py`).

The four LangGraph nodes are embedded as pure state-transition functions.
Each node's underlying agent call is a fallible external operation
(network + LLM); it is modelled by an `AgentBehavior` record of oracles
returning `Except String _`, where `.error e` stands for the Python call
raising an exception whose `str` is `e`.

The LangGraph `StateGraph` built by `_build_workflow` is a straight-line
chain `scout_repositories -> prepare_onboarding -> match_issues ->
create_mentoring_plan -> END`; its execution (`ainvoke`) is modelled as
left-to-right application of the node functions along the configured
edges, each node's returned state record becoming the next node's input,
which is how the nodes (returning the full `{**state, ...}` record) and
the spec describe the state threading.

Float-valued score fields of the pydantic models are embedded as `Rat`;
the orchestrator never reads them.  `datetime` fields are embedded as ISO
strings; the orchestrator never reads them either.
-/

namespace CodePathfinder

/-- Embedding of `SkillLevel` enum from `models/schemas.py`. -/
inductive SkillLevel
  | beginner
  | intermediate
  | advanced
deriving DecidableEq, Repr

/-- Embedding of `UserProfile` pydantic model from `models/schemas.py`. -/
structure UserProfile where
  id : Option Int := none
  skill_level : SkillLevel
  programming_languages : List String
  interests : List String
  time_commitment : String
  github_username : Option String := none
  created_at : Option String := none
deriving DecidableEq, Repr

/-- Embedding of `RepositoryMatch` pydantic model from `models/schemas.py`. -/
structure RepositoryMatch where
  repo_name : String
  repo_url : String
  description : String
  stars : Int
  language : String
  match_score : Rat
  match_reasoning : String
  difficulty_level : SkillLevel
  community_friendliness_score : Rat
  good_first_issues_count : Int
  recent_activity : Bool
deriving DecidableEq, Repr

/-- Embedding of `Issue` pydantic model from `models/schemas.py`. -/
structure Issue where
  issue_number : Int
  title : String
  url : String
  labels : List String
  description : String
  difficulty_rating : SkillLevel
  estimated_complexity : String
  approach_suggestions : String
  created_at : String
  comments_count : Int
deriving DecidableEq, Repr

/-- Embedding of `ContributionGuide` pydantic model from `models/schemas.py`. -/
structure ContributionGuide where
  repo_name : String
  setup_instructions : String
  project_structure : String
  coding_conventions : String
  testing_guide : String
  contribution_workflow : String
  helpful_resources : List String
deriving DecidableEq, Repr

/-- Embedding of `MentoringPlan` pydantic model from `models/schemas.py`. -/
structure MentoringPlan where
  issue_number : Int
  repo_name : String
  step_by_step_plan : List String
  key_files_to_examine : List String
  suggested_approach : String
  git_commands : List String
  testing_strategy : String
  potential_challenges : List String
deriving DecidableEq, Repr

/-- Embedding of `AgentWorkflowState` TypedDict from `workflows/agent_workflow.py`
(lines 23-35): the single state record threaded through the pipeline. -/
structure AgentWorkflowState where
  user_profile : Option UserProfile
  repositories : List RepositoryMatch
  selected_repo_name : Option String
  selected_repo_url : Option String
  issues : List Issue
  selected_issue_number : Option Int
  contribution_guide : Option ContributionGuide
  mentoring_plan : Option MentoringPlan
  messages : List String
  current_step : String
  error : Option String
deriving DecidableEq, Repr

/-- Python truthiness of `Optional[str]`: `None` and `""` are falsy. -/
def optStrTruthy : Option String → Bool
  | none => false
  | some s => s != ""

/-- Python truthiness of `Optional[int]`: `None` and `0` are falsy. -/
def optIntTruthy : Option Int → Bool
  | none => false
  | some n => n != 0

/-- The four agent calls made by the workflow nodes, as oracles.
`.error e` models the Python coroutine raising an exception with
`str(e) = e`; `.ok v` models it returning `v`. -/
structure AgentBehavior where
  find_repositories : Option UserProfile → Except String (List RepositoryMatch)
  prepare_onboarding_guide : Option UserProfile → Option String → Except String ContributionGuide
  find_suitable_issues : Option UserProfile → Option String → Except String (List Issue)
  create_mentoring_plan : Option UserProfile → Option String → Option Int → Except String MentoringPlan

/-- Embedding of `scout_repositories_node` (agent_workflow.py lines 74-90). -/
def scout_repositories_node (b : AgentBehavior) (state : AgentWorkflowState) :
    AgentWorkflowState :=
  match b.find_repositories state.user_profile with
  | .ok repositories =>
      { state with
          repositories := repositories
          messages := state.messages ++
            ["Found " ++ toString repositories.length ++ " suitable repositories"]
          current_step := "repositories_found" }
  | .error e =>
      { state with
          error := some ("Error scouting repositories: " ++ e)
          messages := state.messages ++ ["Error: " ++ e] }

/-- The in-place default-selection mutation performed by
`prepare_onboarding_node` (lines 95-98) before its agent call:
`if not state.get("selected_repo_name") and state.get("repositories"):`
then copy name and URL from `repositories[0]`. -/
def defaultRepoSelection (state : AgentWorkflowState) : AgentWorkflowState :=
  match state.repositories with
  | [] => state
  | r :: _ =>
      if optStrTruthy state.selected_repo_name then state
      else
        { state with
            selected_repo_name := some r.repo_name
            selected_repo_url := some r.repo_url }

/-- Embedding of `prepare_onboarding_node` (agent_workflow.py lines 92-116).  The
default selection mutates `state` before the agent call, so both the
success and the exception branch see the mutated record. -/
def prepare_onboarding_node (b : AgentBehavior) (state0 : AgentWorkflowState) :
    AgentWorkflowState :=
  let state := defaultRepoSelection state0
  match b.prepare_onboarding_guide state.user_profile state.selected_repo_name with
  | .ok guide =>
      { state with
          contribution_guide := some guide
          messages := state.messages ++ ["Prepared onboarding guide"]
          current_step := "guide_prepared" }
  | .error e =>
      { state with
          error := some ("Error preparing guide: " ++ e)
          messages := state.messages ++ ["Error: " ++ e] }

/-- Embedding of `match_issues_node` (agent_workflow.py lines 118-137). -/
def match_issues_node (b : AgentBehavior) (state : AgentWorkflowState) :
    AgentWorkflowState :=
  match b.find_suitable_issues state.user_profile state.selected_repo_name with
  | .ok issues =>
      { state with
          issues := issues
          messages := state.messages ++
            ["Found " ++ toString issues.length ++ " suitable issues"]
          current_step := "issues_matched" }
  | .error e =>
      { state with
          error := some ("Error matching issues: " ++ e)
          messages := state.messages ++ ["Error: " ++ e] }

/-- The in-place default-selection mutation performed by
`create_mentoring_plan_node` (lines 142-144) before its agent call:
`if not state.get("selected_issue_number") and state.get("issues"):`
then copy the number from `issues[0]`. -/
def defaultIssueSelection (state : AgentWorkflowState) : AgentWorkflowState :=
  match state.issues with
  | [] => state
  | i :: _ =>
      if optIntTruthy state.selected_issue_number then state
      else { state with selected_issue_number := some i.issue_number }

/-- Embedding of `create_mentoring_plan_node` (agent_workflow.py lines 139-163). -/
def create_mentoring_plan_node (b : AgentBehavior) (state0 : AgentWorkflowState) :
    AgentWorkflowState :=
  let state := defaultIssueSelection state0
  match b.create_mentoring_plan state.user_profile state.selected_repo_name
      state.selected_issue_number with
  | .ok plan =>
      { state with
          mentoring_plan := some plan
          messages := state.messages ++ ["Created mentoring plan"]
          current_step := "plan_created" }
  | .error e =>
      { state with
          error := some ("Error creating plan: " ++ e)
          messages := state.messages ++ ["Error: " ++ e] }

/-- Names of the four graph nodes registered in `_build_workflow`. -/
inductive NodeName
  | scout_repositories
  | prepare_onboarding
  | match_issues
  | create_mentoring_plan
deriving DecidableEq, Repr

/-- Dispatch a node name to its transition function. -/
def runNode (b : AgentBehavior) : NodeName → AgentWorkflowState → AgentWorkflowState
  | .scout_repositories => scout_repositories_node b
  | .prepare_onboarding => prepare_onboarding_node b
  | .match_issues => match_issues_node b
  | .create_mentoring_plan => create_mentoring_plan_node b

/-- Execute a chain of nodes left to right, each node's returned state
becoming the next node's input (LangGraph straight-line `ainvoke`). -/
def runNodes (b : AgentBehavior) (ns : List NodeName) (s : AgentWorkflowState) :
    AgentWorkflowState :=
  ns.foldl (fun t n => runNode b n t) s

/-- The edge order fixed by `_build_workflow` (lines 54-72). -/
def fullWorkflowNodes : List NodeName :=
  [.scout_repositories, .prepare_onboarding, .match_issues, .create_mentoring_plan]

/-- The `initial_state` literal built by `run_full_workflow`
(lines 169-181). -/
def initial_state (user_profile : UserProfile) : AgentWorkflowState :=
  { user_profile := some user_profile
    repositories := []
    selected_repo_name := none
    selected_repo_url := none
    issues := []
    selected_issue_number := none
    contribution_guide := none
    mentoring_plan := none
    messages := ["Starting CodePathfinder workflow"]
    current_step := "initializing"
    error := none }

/-- Embedding of `run_full_workflow` (agent_workflow.py lines 165-186). -/
def run_full_workflow (b : AgentBehavior) (user_profile : UserProfile) :
    AgentWorkflowState :=
  runNodes b fullWorkflowNodes (initial_state user_profile)

/-- The if/elif chain of `run_partial_workflow` (lines 199-218): the node
chain registered for each recognized `start_node`.  No branch registers
anything for any other name — in particular not for
`"scout_repositories"`. -/
def partialWorkflowNodes (start_node : String) : Option (List NodeName) :=
  if start_node = "prepare_onboarding" then
    some [.prepare_onboarding, .match_issues, .create_mentoring_plan]
  else if start_node = "match_issues" then
    some [.match_issues, .create_mentoring_plan]
  else if start_node = "create_mentoring_plan" then
    some [.create_mentoring_plan]
  else
    none

/-- Embedding of `run_partial_workflow` (agent_workflow.py lines 188-223).  When no
branch matched, `workflow.compile()` is called on a graph with no entry
point and raises before `ainvoke` runs any node; this is the `.error`
outcome, and the supplied state is not touched. -/
def run_partial_workflow (b : AgentBehavior) (start_node : String)
    (state : AgentWorkflowState) : Except String AgentWorkflowState :=
  match partialWorkflowNodes start_node with
  | some ns => .ok (runNodes b ns state)
  | none => .error "Graph must have an entrypoint"

/-! ### The Preparation agent (`agents/preparation/preparation_agent.py`)

`prepare_onboarding_guide` is embedded concretely enough to settle
whether the generative-text provider is invoked when `repo_name` is
`None`.  The three GitHub tool wrappers it calls (from
`tools/github_tools.py`) each contain a catch-all `try/except` and
return an `Optional`/dict value instead of raising, so they are total
functions here.  The prompt text assembled by `_generate_guide` is
domain content outside the spec's scope and is not reproduced; the
Gemini call and the whole parsing `try` block (`response.text`, brace
search, `json.loads`, key lookups) are oracles. -/

/-- The two keys of the `repo_info` dict that `_generate_guide` reads
(`.get("language")`, `.get("description")`). -/
structure RepoInfo where
  language : Option String := none
  description : Option String := none
deriving DecidableEq, Repr

/-- External calls made while preparing an onboarding guide, in the
order the source performs them. -/
inductive PrepCall
  | get_readme
  | get_contributing_guide
  | get_repository_info
  | generate_content
deriving DecidableEq, Repr

/-- The six JSON fields `_generate_guide` reads out of the parsed LLM
response. -/
structure GuideJson where
  setup_instructions : String
  project_structure : String
  coding_conventions : String
  testing_guide : String
  contribution_workflow : String
  helpful_resources : List String
deriving DecidableEq, Repr

/-- Oracles for the Preparation agent's external calls.
`readme`, `contributing` and `repo_info` model `GitHubTools.get_readme`,
`get_contributing_guide` and `get_repository_info`: each swallows every
exception internally (catch-all `except`) and returns a value, hence a
total function of the repo name.  `generate_content` models the Gemini
call at preparation_agent.py line 104 (outside any `try`: a fault
propagates).  `parse_response` models the `try` block at lines 112-126
(`response.text`, brace slicing, `json.loads`, key lookups): a fault
there is caught and routed to the fallback guide. -/
structure GeminiOracle where
  readme : Option String → Option String
  contributing : Option String → Option String
  repo_info : Option String → RepoInfo
  generate_content : Except String String
  parse_response : String → Except String GuideJson

/-- Python `x or default` for an `Optional[str] `x`: `None` and `""`
fall through to the default. -/
def pyOrStr (x : Option String) (d : String) : String :=
  match x with
  | none => d
  | some s => if s = "" then d else s

/-- Python f-string rendering of an `Optional[str]` value (`None`
prints as `"None"`). -/
def pyStr : Option String → String
  | none => "None"
  | some s => s

/-- Embedding of `PreparationAgent._extract_setup_from_readme` (lines 144-160):
return the first ~500 characters of the README starting at the first
setup-section keyword found, searching the keywords in order. -/
def extract_setup_from_readme (readme : Option String) : Option String :=
  match readme with
  | none => none
  | some r =>
      if r = "" then none
      else
        let lower := r.toLower
        let keywords := ["## installation", "## setup", "## getting started", "## quick start"]
        (keywords.filterMap fun kw =>
          let parts := lower.splitOn kw
          if parts.length > 1 then
            some ((r.drop (parts.headD "").length).take 500)
          else none).head?

/-- Embedding of `PreparationAgent._extract_conventions` (lines 162-176). -/
def extract_conventions (contributing : Option String) : Option String :=
  match contributing with
  | none => none
  | some g =>
      if g = "" then none
      else
        let lower := g.toLower
        let keywords := ["## style", "## coding", "## convention"]
        (keywords.filterMap fun kw =>
          let parts := lower.splitOn kw
          if parts.length > 1 then
            some ((g.drop (parts.headD "").length).take 400)
          else none).head?

/-- Construction of the pydantic `ContributionGuide` with a possibly-null
`repo_name`.  The schema declares `repo_name : str` (not optional), so
passing `None` raises a `ValidationError`, modelled as `.error`. -/
def mkContributionGuide (repo_name : Option String) (g : GuideJson) :
    Except String ContributionGuide :=
  match repo_name with
  | none => .error "1 validation error for ContributionGuide: repo_name must be a string, got None"
  | some name =>
      .ok { repo_name := name
            setup_instructions := g.setup_instructions
            project_structure := g.project_structure
            coding_conventions := g.coding_conventions
            testing_guide := g.testing_guide
            contribution_workflow := g.contribution_workflow
            helpful_resources := g.helpful_resources }

/-- The fallback guide contents built in the `except` branch of
`_generate_guide` (lines 130-142). -/
def fallback_guide (repo_name readme contributing : Option String) : GuideJson :=
  { setup_instructions :=
      pyOrStr (extract_setup_from_readme readme)
        "Clone the repository and follow README instructions"
    project_structure := "Explore the repository to understand the structure"
    coding_conventions :=
      pyOrStr (extract_conventions contributing)
        "Follow the project's existing code style"
    testing_guide := "Check README or CONTRIBUTING.md for testing instructions"
    contribution_workflow := "Standard GitHub flow: fork, branch, commit, push, PR"
    helpful_resources :=
      ["Repository: https://github.com/" ++ pyStr repo_name,
       "GitHub Flow Guide: https://guides.github.com/introduction/flow/"] }

/-- Embedding of `PreparationAgent._generate_guide` (lines 46-142), returning the
result together with the list of provider calls performed.  The Gemini
call happens unconditionally; a fault in it propagates.  On a parse or
validation fault inside the `try`, the fallback guide is constructed —
whose own `ContributionGuide` validation fault propagates. -/
def generate_guide (o : GeminiOracle) (repo_name readme contributing : Option String) :
    Except String ContributionGuide × List PrepCall :=
  match o.generate_content with
  | .error e => (.error e, [PrepCall.generate_content])
  | .ok response =>
      let attempt : Except String ContributionGuide :=
        match o.parse_response response with
        | .ok gj => mkContributionGuide repo_name gj
        | .error e => .error e
      match attempt with
      | .ok guide => (.ok guide, [PrepCall.generate_content])
      | .error _ =>
          (mkContributionGuide repo_name (fallback_guide repo_name readme contributing),
           [PrepCall.generate_content])

/-- Embedding of `PreparationAgent.prepare_onboarding_guide` (lines 22-44): gather
README, CONTRIBUTING and repository info (all three catch their own
faults), then generate the guide.  Returns the result together with the
provider calls performed, in order. -/
def prepare_onboarding_guide_run (o : GeminiOracle) (repo_name : Option String) :
    Except String ContributionGuide × List PrepCall :=
  let readme := o.readme repo_name
  let contributing := o.contributing repo_name
  let _repo_info := o.repo_info repo_name
  let g := generate_guide o repo_name readme contributing
  (g.1,
   [PrepCall.get_readme, PrepCall.get_contributing_guide, PrepCall.get_repository_info]
     ++ g.2)

/-- Embedding of `prepare_onboarding_node` with its agent call instantiated to the
embedded `PreparationAgent.prepare_onboarding_guide`, returning the
provider-call trace alongside the new state. -/
def prepare_onboarding_node_gemini (o : GeminiOracle) (state0 : AgentWorkflowState) :
    AgentWorkflowState × List PrepCall :=
  let state := defaultRepoSelection state0
  let r := prepare_onboarding_guide_run o state.selected_repo_name
  match r.1 with
  | .ok guide =>
      ({ state with
           contribution_guide := some guide
           messages := state.messages ++ ["Prepared onboarding guide"]
           current_step := "guide_prepared" }, r.2)
  | .error e =>
      ({ state with
           error := some ("Error preparing guide: " ++ e)
           messages := state.messages ++ ["Error: " ++ e] }, r.2)

/-! ### Concrete fixtures used by the witnesses and counterexamples -/

/-- A concrete user profile. -/
def sampleProfile : UserProfile :=
  { id := none
    skill_level := .beginner
    programming_languages := ["Python"]
    interests := ["web-dev"]
    time_commitment := "5 hours"
    github_username := none
    created_at := none }

/-- A concrete repository candidate. -/
def sampleRepo : RepositoryMatch :=
  { repo_name := "octo/alpha"
    repo_url := "https://github.com/octo/alpha"
    description := "demo"
    stars := 120
    language := "Python"
    match_score := 1
    match_reasoning := "fits"
    difficulty_level := .beginner
    community_friendliness_score := 1
    good_first_issues_count := 4
    recent_activity := true }

/-- A concrete issue candidate. -/
def sampleIssue : Issue :=
  { issue_number := 7
    title := "Fix typo"
    url := "https://github.com/octo/alpha/issues/7"
    labels := ["good first issue"]
    description := "small fix"
    difficulty_rating := .beginner
    estimated_complexity := "low"
    approach_suggestions := "edit the doc"
    created_at := "2024-01-01T00:00:00"
    comments_count := 1 }

/-- A concrete contribution guide. -/
def sampleGuide : ContributionGuide :=
  { repo_name := "octo/alpha"
    setup_instructions := "clone"
    project_structure := "src"
    coding_conventions := "pep8"
    testing_guide := "pytest"
    contribution_workflow := "fork"
    helpful_resources := ["docs"] }

/-- A concrete mentoring plan. -/
def samplePlan : MentoringPlan :=
  { issue_number := 7
    repo_name := "octo/alpha"
    step_by_step_plan := ["read"]
    key_files_to_examine := ["README.md"]
    suggested_approach := "simple"
    git_commands := ["git clone"]
    testing_strategy := "pytest"
    potential_challenges := ["none"] }

/-- A workflow state with every collection empty and no selections. -/
def baseState : AgentWorkflowState :=
  { user_profile := some sampleProfile
    repositories := []
    selected_repo_name := none
    selected_repo_url := none
    issues := []
    selected_issue_number := none
    contribution_guide := none
    mentoring_plan := none
    messages := []
    current_step := "initializing"
    error := none }

/-- Agent behavior in which every agent call succeeds. -/
def behaviorAllOk : AgentBehavior :=
  { find_repositories := fun _ => .ok [sampleRepo]
    prepare_onboarding_guide := fun _ _ => .ok sampleGuide
    find_suitable_issues := fun _ _ => .ok [sampleIssue]
    create_mentoring_plan := fun _ _ _ => .ok samplePlan }

/-- Agent behavior in which every agent call raises. -/
def behaviorAllFail : AgentBehavior :=
  { find_repositories := fun _ => .error "scout down"
    prepare_onboarding_guide := fun _ _ => .error "prep down"
    find_suitable_issues := fun _ _ => .error "match down"
    create_mentoring_plan := fun _ _ _ => .error "mentor down" }

/-! ### Frame lemmas about the default-selection mutations and nodes -/

theorem defaultRepoSelection_frame (s : AgentWorkflowState) :
    (defaultRepoSelection s).user_profile = s.user_profile ∧
    (defaultRepoSelection s).repositories = s.repositories ∧
    (defaultRepoSelection s).issues = s.issues ∧
    (defaultRepoSelection s).selected_issue_number = s.selected_issue_number ∧
    (defaultRepoSelection s).contribution_guide = s.contribution_guide ∧
    (defaultRepoSelection s).mentoring_plan = s.mentoring_plan ∧
    (defaultRepoSelection s).messages = s.messages ∧
    (defaultRepoSelection s).current_step = s.current_step ∧
    (defaultRepoSelection s).error = s.error := by
  unfold defaultRepoSelection
  cases h : s.repositories with
  | nil => simp [h]
  | cons r rs => by_cases hsel : optStrTruthy s.selected_repo_name <;> simp [hsel, h]

theorem defaultIssueSelection_frame (s : AgentWorkflowState) :
    (defaultIssueSelection s).user_profile = s.user_profile ∧
    (defaultIssueSelection s).repositories = s.repositories ∧
    (defaultIssueSelection s).issues = s.issues ∧
    (defaultIssueSelection s).selected_repo_name = s.selected_repo_name ∧
    (defaultIssueSelection s).selected_repo_url = s.selected_repo_url ∧
    (defaultIssueSelection s).contribution_guide = s.contribution_guide ∧
    (defaultIssueSelection s).mentoring_plan = s.mentoring_plan ∧
    (defaultIssueSelection s).messages = s.messages ∧
    (defaultIssueSelection s).current_step = s.current_step ∧
    (defaultIssueSelection s).error = s.error := by
  unfold defaultIssueSelection
  cases h : s.issues with
  | nil => simp [h]
  | cons i is => by_cases hsel : optIntTruthy s.selected_issue_number <;> simp [hsel, h]

theorem match_issues_node_frame (b : AgentBehavior) (s : AgentWorkflowState) :
    (match_issues_node b s).user_profile = s.user_profile ∧
    (match_issues_node b s).repositories = s.repositories ∧
    (match_issues_node b s).selected_repo_name = s.selected_repo_name ∧
    (match_issues_node b s).selected_repo_url = s.selected_repo_url ∧
    (match_issues_node b s).selected_issue_number = s.selected_issue_number ∧
    (match_issues_node b s).contribution_guide = s.contribution_guide ∧
    (match_issues_node b s).mentoring_plan = s.mentoring_plan := by
  unfold match_issues_node
  cases b.find_suitable_issues s.user_profile s.selected_repo_name <;> simp

theorem create_mentoring_plan_node_frame (b : AgentBehavior) (s : AgentWorkflowState) :
    (create_mentoring_plan_node b s).user_profile = s.user_profile ∧
    (create_mentoring_plan_node b s).repositories = s.repositories ∧
    (create_mentoring_plan_node b s).selected_repo_name = s.selected_repo_name ∧
    (create_mentoring_plan_node b s).selected_repo_url = s.selected_repo_url ∧
    (create_mentoring_plan_node b s).issues = s.issues ∧
    (create_mentoring_plan_node b s).contribution_guide = s.contribution_guide := by
  obtain ⟨h1, h2, h3, h4, h5, h6, h7, h8, h9, h10⟩ := defaultIssueSelection_frame s
  cases hc : b.create_mentoring_plan (defaultIssueSelection s).user_profile
      (defaultIssueSelection s).selected_repo_name
      (defaultIssueSelection s).selected_issue_number <;>
    simp only [create_mentoring_plan_node, hc] <;>
    simp [h1, h2, h3, h4, h5, h6]

theorem scout_node_ok (b : AgentBehavior) (s : AgentWorkflowState)
    (repos : List RepositoryMatch) (h : b.find_repositories s.user_profile = .ok repos) :
    scout_repositories_node b s =
      { s with
          repositories := repos
          messages := s.messages ++
            ["Found " ++ toString repos.length ++ " suitable repositories"]
          current_step := "repositories_found" } := by
  simp only [scout_repositories_node, h]

theorem scout_node_err (b : AgentBehavior) (s : AgentWorkflowState)
    (e : String) (h : b.find_repositories s.user_profile = .error e) :
    scout_repositories_node b s =
      { s with
          error := some ("Error scouting repositories: " ++ e)
          messages := s.messages ++ ["Error: " ++ e] } := by
  simp only [scout_repositories_node, h]

theorem prepare_node_ok (b : AgentBehavior) (s : AgentWorkflowState)
    (guide : ContributionGuide)
    (h : b.prepare_onboarding_guide (defaultRepoSelection s).user_profile
        (defaultRepoSelection s).selected_repo_name = .ok guide) :
    prepare_onboarding_node b s =
      { defaultRepoSelection s with
          contribution_guide := some guide
          messages := (defaultRepoSelection s).messages ++ ["Prepared onboarding guide"]
          current_step := "guide_prepared" } := by
  simp only [prepare_onboarding_node, h]

theorem prepare_node_err (b : AgentBehavior) (s : AgentWorkflowState)
    (e : String)
    (h : b.prepare_onboarding_guide (defaultRepoSelection s).user_profile
        (defaultRepoSelection s).selected_repo_name = .error e) :
    prepare_onboarding_node b s =
      { defaultRepoSelection s with
          error := some ("Error preparing guide: " ++ e)
          messages := (defaultRepoSelection s).messages ++ ["Error: " ++ e] } := by
  simp only [prepare_onboarding_node, h]

theorem match_node_ok (b : AgentBehavior) (s : AgentWorkflowState)
    (issues : List Issue)
    (h : b.find_suitable_issues s.user_profile s.selected_repo_name = .ok issues) :
    match_issues_node b s =
      { s with
          issues := issues
          messages := s.messages ++
            ["Found " ++ toString issues.length ++ " suitable issues"]
          current_step := "issues_matched" } := by
  simp only [match_issues_node, h]

theorem match_node_err (b : AgentBehavior) (s : AgentWorkflowState)
    (e : String) (h : b.find_suitable_issues s.user_profile s.selected_repo_name = .error e) :
    match_issues_node b s =
      { s with
          error := some ("Error matching issues: " ++ e)
          messages := s.messages ++ ["Error: " ++ e] } := by
  simp only [match_issues_node, h]

theorem mentor_node_ok (b : AgentBehavior) (s : AgentWorkflowState)
    (plan : MentoringPlan)
    (h : b.create_mentoring_plan (defaultIssueSelection s).user_profile
        (defaultIssueSelection s).selected_repo_name
        (defaultIssueSelection s).selected_issue_number = .ok plan) :
    create_mentoring_plan_node b s =
      { defaultIssueSelection s with
          mentoring_plan := some plan
          messages := (defaultIssueSelection s).messages ++ ["Created mentoring plan"]
          current_step := "plan_created" } := by
  simp only [create_mentoring_plan_node, h]

theorem mentor_node_err (b : AgentBehavior) (s : AgentWorkflowState)
    (e : String)
    (h : b.create_mentoring_plan (defaultIssueSelection s).user_profile
        (defaultIssueSelection s).selected_repo_name
        (defaultIssueSelection s).selected_issue_number = .error e) :
    create_mentoring_plan_node b s =
      { defaultIssueSelection s with
          error := some ("Error creating plan: " ++ e)
          messages := (defaultIssueSelection s).messages ++ ["Error: " ++ e] } := by
  simp only [create_mentoring_plan_node, h]

theorem runNode_messages_append (b : AgentBehavior) (n : NodeName) (s : AgentWorkflowState) :
    ∃ m, (runNode b n s).messages = s.messages ++ [m] := by
  obtain ⟨_, _, _, _, _, _, hm1, _, _⟩ := defaultRepoSelection_frame s
  obtain ⟨_, _, _, _, _, _, _, hm2, _, _⟩ := defaultIssueSelection_frame s
  cases n with
  | scout_repositories =>
      cases h : b.find_repositories s.user_profile with
      | ok v =>
          exact ⟨"Found " ++ toString v.length ++ " suitable repositories",
            by simp [runNode, scout_node_ok b s v h]⟩
      | error e => exact ⟨"Error: " ++ e, by simp [runNode, scout_node_err b s e h]⟩
  | prepare_onboarding =>
      cases h : b.prepare_onboarding_guide (defaultRepoSelection s).user_profile
          (defaultRepoSelection s).selected_repo_name with
      | ok v =>
          exact ⟨"Prepared onboarding guide",
            by simp [runNode, prepare_node_ok b s v h, hm1]⟩
      | error e => exact ⟨"Error: " ++ e, by simp [runNode, prepare_node_err b s e h, hm1]⟩
  | match_issues =>
      cases h : b.find_suitable_issues s.user_profile s.selected_repo_name with
      | ok v =>
          exact ⟨"Found " ++ toString v.length ++ " suitable issues",
            by simp [runNode, match_node_ok b s v h]⟩
      | error e => exact ⟨"Error: " ++ e, by simp [runNode, match_node_err b s e h]⟩
  | create_mentoring_plan =>
      cases h : b.create_mentoring_plan (defaultIssueSelection s).user_profile
          (defaultIssueSelection s).selected_repo_name
          (defaultIssueSelection s).selected_issue_number with
      | ok v =>
          exact ⟨"Created mentoring plan",
            by simp [runNode, mentor_node_ok b s v h, hm2]⟩
      | error e => exact ⟨"Error: " ++ e, by simp [runNode, mentor_node_err b s e h, hm2]⟩

theorem runNode_messages_length (b : AgentBehavior) (n : NodeName) (s : AgentWorkflowState) :
    (runNode b n s).messages.length = s.messages.length + 1 := by
  obtain ⟨m, hm⟩ := runNode_messages_append b n s
  simp [hm]

theorem prepare_node_sel (b : AgentBehavior) (s : AgentWorkflowState) :
    (prepare_onboarding_node b s).selected_repo_name = (defaultRepoSelection s).selected_repo_name ∧
    (prepare_onboarding_node b s).selected_repo_url = (defaultRepoSelection s).selected_repo_url := by
  cases h : b.prepare_onboarding_guide (defaultRepoSelection s).user_profile
      (defaultRepoSelection s).selected_repo_name with
  | ok v => rw [prepare_node_ok b s v h]; exact ⟨rfl, rfl⟩
  | error e => rw [prepare_node_err b s e h]; exact ⟨rfl, rfl⟩

theorem mentor_node_sel (b : AgentBehavior) (s : AgentWorkflowState) :
    (create_mentoring_plan_node b s).selected_issue_number =
      (defaultIssueSelection s).selected_issue_number := by
  cases h : b.create_mentoring_plan (defaultIssueSelection s).user_profile
      (defaultIssueSelection s).selected_repo_name
      (defaultIssueSelection s).selected_issue_number with
  | ok v => rw [mentor_node_ok b s v h]
  | error e => rw [mentor_node_err b s e h]

/-- A state whose caller explicitly selected the empty-string repository
name, with one repository candidate present. -/
def stateEmptyRepoName : AgentWorkflowState :=
  { baseState with selected_repo_name := some "", repositories := [sampleRepo] }

/-- A state whose caller explicitly selected issue number 0, with one
issue candidate present. -/
def stateZeroIssue : AgentWorkflowState :=
  { baseState with selected_issue_number := some 0, issues := [sampleIssue] }

/-! ### Claim theorems -/

/-- C1: `run_full_workflow` builds an initial state with `repositories` and
`issues` empty, all selection/output/error fields null, messages equal to the
one-element list `["Starting CodePathfinder workflow"]` and `current_step =
"initializing"`, then applies exactly the four stage transitions Scout,
Preparation, Issue-Matcher, Mentor in that fixed order, feeding each stage's
output state to the next, and returns the final stage's output
unconditionally — also when some stage recorded an error. -/
theorem run_full_workflow_spec (b : AgentBehavior) (up : UserProfile) :
    run_full_workflow b up =
      create_mentoring_plan_node b (match_issues_node b (prepare_onboarding_node b
        (scout_repositories_node b (initial_state up)))) ∧
    initial_state up =
      { user_profile := some up
        repositories := []
        selected_repo_name := none
        selected_repo_url := none
        issues := []
        selected_issue_number := none
        contribution_guide := none
        mentoring_plan := none
        messages := ["Starting CodePathfinder workflow"]
        current_step := "initializing"
        error := none } :=
  ⟨rfl, rfl⟩

/-- C5 (amended): `messages` is append-only and grows by exactly one entry
per stage attempt, success or failure; a full run executes 4 stage attempts
on top of the one-element initial log, so its final `messages` length is
1 + 4 = 5, not 4. -/
theorem messages_growth (b : AgentBehavior) (n : NodeName) (s : AgentWorkflowState) :
    (∃ m, (runNode b n s).messages = s.messages ++ [m]) ∧
    (runNode b n s).messages.length = s.messages.length + 1 ∧
    ∀ up : UserProfile, (run_full_workflow b up).messages.length = 1 + 4 := by
  refine ⟨runNode_messages_append b n s, runNode_messages_length b n s, fun up => ?_⟩
  show (runNode b .create_mentoring_plan (runNode b .match_issues
    (runNode b .prepare_onboarding (runNode b .scout_repositories
      (initial_state up))))).messages.length = 1 + 4
  rw [runNode_messages_length, runNode_messages_length, runNode_messages_length,
    runNode_messages_length]
  rfl

/-- C5 counterexample: in a full run where every stage succeeds, 4 stage
attempts are executed but the final `messages` length is 5 (the initial
"Starting CodePathfinder workflow" entry plus one per stage), not 4. -/
theorem messages_length_cex :
    (run_full_workflow behaviorAllOk sampleProfile).messages.length = 5 ∧
    ¬ ((run_full_workflow behaviorAllOk sampleProfile).messages.length = 4) := by
  have h : (run_full_workflow behaviorAllOk sampleProfile).messages.length = 5 := by rfl
  exact ⟨h, by rw [h]; decide⟩

/-- C9: running the partial workflow from the `"match_issues"` entry point
executes exactly the two stage transitions Issue-Matcher then Mentor, in
that order, and the returned state's `repositories` and `contribution_guide`
are unchanged from the supplied state. -/
theorem run_partial_match_issues_spec (b : AgentBehavior) (s : AgentWorkflowState) :
    run_partial_workflow b "match_issues" s =
      .ok (create_mentoring_plan_node b (match_issues_node b s)) ∧
    (create_mentoring_plan_node b (match_issues_node b s)).repositories = s.repositories ∧
    (create_mentoring_plan_node b (match_issues_node b s)).contribution_guide =
      s.contribution_guide := by
  refine ⟨rfl, ?_, ?_⟩
  · rw [(create_mentoring_plan_node_frame b (match_issues_node b s)).2.1,
      (match_issues_node_frame b s).2.1]
  · rw [(create_mentoring_plan_node_frame b (match_issues_node b s)).2.2.2.2.2,
      (match_issues_node_frame b s).2.2.2.2.2.1]

/-- C10: the defaulting checks use Python truthiness and therefore treat
falsy selections as unset: an explicitly selected issue number 0 (with
issues non-empty) is overwritten with the first issue's number by the Mentor
transition, and an explicitly selected empty-string repository name (with
repositories non-empty) is overwritten with the first repository's name by
the Preparation transition. -/
theorem falsy_selection_overwritten (b : AgentBehavior)
    (s1 s2 : AgentWorkflowState) (r : RepositoryMatch) (rs : List RepositoryMatch)
    (i : Issue) (rest : List Issue)
    (h1 : s1.selected_repo_name = some "") (h2 : s1.repositories = r :: rs)
    (h3 : s2.selected_issue_number = some 0) (h4 : s2.issues = i :: rest) :
    (prepare_onboarding_node b s1).selected_repo_name = some r.repo_name ∧
    (prepare_onboarding_node b s1).selected_repo_url = some r.repo_url ∧
    (create_mentoring_plan_node b s2).selected_issue_number = some i.issue_number := by
  have hd : (defaultRepoSelection s1).selected_repo_name = some r.repo_name ∧
      (defaultRepoSelection s1).selected_repo_url = some r.repo_url := by
    unfold defaultRepoSelection
    rw [h2]
    simp [h1, optStrTruthy]
  have hq : (defaultIssueSelection s2).selected_issue_number = some i.issue_number := by
    unfold defaultIssueSelection
    rw [h4]
    simp [h3, optIntTruthy]
  exact ⟨(prepare_node_sel b s1).1.trans hd.1,
    (prepare_node_sel b s1).2.trans hd.2,
    (mentor_node_sel b s2).trans hq⟩

/-- Witness for C10 at concrete inputs: the explicit empty-string repository
selection and the explicit issue selection 0 are both overwritten. -/
theorem falsy_selection_overwritten_witness :
    (prepare_onboarding_node behaviorAllOk stateEmptyRepoName).selected_repo_name =
      some sampleRepo.repo_name ∧
    (create_mentoring_plan_node behaviorAllOk stateZeroIssue).selected_issue_number =
      some sampleIssue.issue_number :=
  ⟨(falsy_selection_overwritten behaviorAllOk stateEmptyRepoName stateZeroIssue
      sampleRepo [] sampleIssue [] rfl rfl rfl rfl).1,
   (falsy_selection_overwritten behaviorAllOk stateEmptyRepoName stateZeroIssue
      sampleRepo [] sampleIssue [] rfl rfl rfl rfl).2.2⟩

/-- A state with one repository candidate and no selections yet. -/
def stateRepoOnly : AgentWorkflowState :=
  { baseState with repositories := [sampleRepo] }

/-- A state carrying an error recorded by an earlier stage. -/
def stateWithError : AgentWorkflowState :=
  { baseState with error := some "previous failure" }

/-- C2 counterexample: with one repository candidate and no selection, the
Preparation stage's agent call raises, yet the returned state's
`selected_repo_name` differs from the input's — the pre-call defaulting had
already mutated the state record the exception handler copies. -/
theorem stage_failure_frame_cex :
    behaviorAllFail.prepare_onboarding_guide
      (defaultRepoSelection stateRepoOnly).user_profile
      (defaultRepoSelection stateRepoOnly).selected_repo_name = .error "prep down" ∧
    (prepare_onboarding_node behaviorAllFail stateRepoOnly).error ≠ none ∧
    ¬ ((prepare_onboarding_node behaviorAllFail stateRepoOnly).selected_repo_name
        = stateRepoOnly.selected_repo_name) := by
  refine ⟨rfl, ?_, ?_⟩ <;> decide

/-- C2 (amended): when a stage's agent call raises, the returned state equals
the input state except that `error` is set to the stage's message embedding
the fault description, `messages` gets exactly one entry containing the same
fault description appended, and — for the Preparation and Mentor stages — the
selection fields that the pre-call defaulting may already have set
(`selected_repo_name`/`selected_repo_url`, resp. `selected_issue_number`).
The stage's owned field(s) and `current_step` are unchanged from the input. -/
theorem stage_failure_frame (b : AgentBehavior) (s : AgentWorkflowState)
    (e1 e2 e3 e4 : String)
    (h1 : b.find_repositories s.user_profile = .error e1)
    (h2 : b.prepare_onboarding_guide (defaultRepoSelection s).user_profile
        (defaultRepoSelection s).selected_repo_name = .error e2)
    (h3 : b.find_suitable_issues s.user_profile s.selected_repo_name = .error e3)
    (h4 : b.create_mentoring_plan (defaultIssueSelection s).user_profile
        (defaultIssueSelection s).selected_repo_name
        (defaultIssueSelection s).selected_issue_number = .error e4) :
    scout_repositories_node b s =
      { s with
          error := some ("Error scouting repositories: " ++ e1)
          messages := s.messages ++ ["Error: " ++ e1] } ∧
    prepare_onboarding_node b s =
      { defaultRepoSelection s with
          error := some ("Error preparing guide: " ++ e2)
          messages := s.messages ++ ["Error: " ++ e2] } ∧
    match_issues_node b s =
      { s with
          error := some ("Error matching issues: " ++ e3)
          messages := s.messages ++ ["Error: " ++ e3] } ∧
    create_mentoring_plan_node b s =
      { defaultIssueSelection s with
          error := some ("Error creating plan: " ++ e4)
          messages := s.messages ++ ["Error: " ++ e4] } ∧
    (prepare_onboarding_node b s).contribution_guide = s.contribution_guide ∧
    (prepare_onboarding_node b s).current_step = s.current_step ∧
    (create_mentoring_plan_node b s).mentoring_plan = s.mentoring_plan ∧
    (create_mentoring_plan_node b s).current_step = s.current_step := by
  obtain ⟨d1, d2, d3, d4, d5, d6, dm, dc, de⟩ := defaultRepoSelection_frame s
  obtain ⟨q1, q2, q3, q4, q5, q6, q7, qm, qc, qe⟩ := defaultIssueSelection_frame s
  refine ⟨scout_node_err b s e1 h1, ?_, match_node_err b s e3 h3, ?_, ?_, ?_, ?_, ?_⟩
  · rw [prepare_node_err b s e2 h2, dm]
  · rw [mentor_node_err b s e4 h4, qm]
  · rw [prepare_node_err b s e2 h2]; simpa using d5
  · rw [prepare_node_err b s e2 h2]; simpa using dc
  · rw [mentor_node_err b s e4 h4]; simpa using q7
  · rw [mentor_node_err b s e4 h4]; simpa using qc

/-- Witness for C2's amended statement: with every agent call failing, the
Preparation stage on a one-repository state produces exactly the input state
with the selections defaulted, the error set and one message appended. -/
theorem stage_failure_frame_witness :
    prepare_onboarding_node behaviorAllFail stateRepoOnly =
      { defaultRepoSelection stateRepoOnly with
          error := some ("Error preparing guide: " ++ "prep down")
          messages := stateRepoOnly.messages ++ ["Error: " ++ "prep down"] } :=
  (stage_failure_frame behaviorAllFail stateRepoOnly
    "scout down" "prep down" "match down" "mentor down" rfl rfl rfl rfl).2.1

/-- C3 counterexample: with one repository candidate and no selection, the
Preparation agent call succeeds, yet the returned state also differs from the
input in `selected_repo_name` — a field the Preparation stage does not own. -/
theorem stage_success_frame_cex :
    behaviorAllOk.prepare_onboarding_guide
      (defaultRepoSelection stateRepoOnly).user_profile
      (defaultRepoSelection stateRepoOnly).selected_repo_name = .ok sampleGuide ∧
    ¬ ((prepare_onboarding_node behaviorAllOk stateRepoOnly).selected_repo_name
        = stateRepoOnly.selected_repo_name) := by
  refine ⟨rfl, ?_⟩
  decide

/-- C3 (amended): when a stage's agent call succeeds, the returned state is
the input state with the stage's owned field(s) overwritten, exactly one
progress message appended summarizing the outcome, `current_step` set to the
stage's completion label ("repositories_found", "guide_prepared",
"issues_matched", "plan_created"), and — for the Preparation and Mentor
stages — the selection fields possibly set by the pre-call defaulting; the
`error` field is never modified, so a non-null error from an earlier stage is
preserved. -/
theorem stage_success_frame (b : AgentBehavior) (s : AgentWorkflowState)
    (repos : List RepositoryMatch) (guide : ContributionGuide)
    (found : List Issue) (plan : MentoringPlan)
    (h1 : b.find_repositories s.user_profile = .ok repos)
    (h2 : b.prepare_onboarding_guide (defaultRepoSelection s).user_profile
        (defaultRepoSelection s).selected_repo_name = .ok guide)
    (h3 : b.find_suitable_issues s.user_profile s.selected_repo_name = .ok found)
    (h4 : b.create_mentoring_plan (defaultIssueSelection s).user_profile
        (defaultIssueSelection s).selected_repo_name
        (defaultIssueSelection s).selected_issue_number = .ok plan) :
    scout_repositories_node b s =
      { s with
          repositories := repos
          messages := s.messages ++
            ["Found " ++ toString repos.length ++ " suitable repositories"]
          current_step := "repositories_found" } ∧
    prepare_onboarding_node b s =
      { defaultRepoSelection s with
          contribution_guide := some guide
          messages := s.messages ++ ["Prepared onboarding guide"]
          current_step := "guide_prepared" } ∧
    match_issues_node b s =
      { s with
          issues := found
          messages := s.messages ++
            ["Found " ++ toString found.length ++ " suitable issues"]
          current_step := "issues_matched" } ∧
    create_mentoring_plan_node b s =
      { defaultIssueSelection s with
          mentoring_plan := some plan
          messages := s.messages ++ ["Created mentoring plan"]
          current_step := "plan_created" } ∧
    (scout_repositories_node b s).error = s.error ∧
    (prepare_onboarding_node b s).error = s.error ∧
    (match_issues_node b s).error = s.error ∧
    (create_mentoring_plan_node b s).error = s.error := by
  obtain ⟨d1, d2, d3, d4, d5, d6, dm, dc, de⟩ := defaultRepoSelection_frame s
  obtain ⟨q1, q2, q3, q4, q5, q6, q7, qm, qc, qe⟩ := defaultIssueSelection_frame s
  refine ⟨scout_node_ok b s repos h1, ?_, match_node_ok b s found h3, ?_, ?_, ?_, ?_, ?_⟩
  · rw [prepare_node_ok b s guide h2, dm]
  · rw [mentor_node_ok b s plan h4, qm]
  · rw [scout_node_ok b s repos h1]
  · rw [prepare_node_ok b s guide h2]; simpa using de
  · rw [match_node_ok b s found h3]
  · rw [mentor_node_ok b s plan h4]; simpa using qe

/-- Witness for C3's amended statement: with every agent call succeeding and
a prior error in the state, the Issue-Matcher stage overwrites only its owned
field, appends one message, sets its completion label, and preserves the
prior error. -/
theorem stage_success_frame_witness :
    match_issues_node behaviorAllOk stateWithError =
      { stateWithError with
          issues := [sampleIssue]
          messages := stateWithError.messages ++ ["Found 1 suitable issues"]
          current_step := "issues_matched" } ∧
    (match_issues_node behaviorAllOk stateWithError).error = stateWithError.error :=
  ⟨(stage_success_frame behaviorAllOk stateWithError
      [sampleRepo] sampleGuide [sampleIssue] samplePlan rfl rfl rfl rfl).2.2.1,
   (stage_success_frame behaviorAllOk stateWithError
      [sampleRepo] sampleGuide [sampleIssue] samplePlan rfl rfl rfl rfl).2.2.2.2.2.2.1⟩

/-- C4: the `error` field is sticky.  When the input state's error is
non-null, every stage's output error is still non-null: a stage whose agent
call succeeds preserves the error exactly, and a stage whose agent call
fails overwrites it with its own stage-specific message — so after a run the
error reflects the most recent failure, not the first.  The runner never
short-circuits: each node in a chain is applied to the previous node's
output unconditionally, error or not. -/
theorem error_sticky (b : AgentBehavior) (s : AgentWorkflowState) (msg : String)
    (h : s.error = some msg) :
    ((scout_repositories_node b s).error ≠ none ∧
     (∀ v, b.find_repositories s.user_profile = .ok v →
        (scout_repositories_node b s).error = some msg) ∧
     (∀ e, b.find_repositories s.user_profile = .error e →
        (scout_repositories_node b s).error = some ("Error scouting repositories: " ++ e))) ∧
    ((prepare_onboarding_node b s).error ≠ none ∧
     (∀ v, b.prepare_onboarding_guide (defaultRepoSelection s).user_profile
          (defaultRepoSelection s).selected_repo_name = .ok v →
        (prepare_onboarding_node b s).error = some msg) ∧
     (∀ e, b.prepare_onboarding_guide (defaultRepoSelection s).user_profile
          (defaultRepoSelection s).selected_repo_name = .error e →
        (prepare_onboarding_node b s).error = some ("Error preparing guide: " ++ e))) ∧
    ((match_issues_node b s).error ≠ none ∧
     (∀ v, b.find_suitable_issues s.user_profile s.selected_repo_name = .ok v →
        (match_issues_node b s).error = some msg) ∧
     (∀ e, b.find_suitable_issues s.user_profile s.selected_repo_name = .error e →
        (match_issues_node b s).error = some ("Error matching issues: " ++ e))) ∧
    ((create_mentoring_plan_node b s).error ≠ none ∧
     (∀ v, b.create_mentoring_plan (defaultIssueSelection s).user_profile
          (defaultIssueSelection s).selected_repo_name
          (defaultIssueSelection s).selected_issue_number = .ok v →
        (create_mentoring_plan_node b s).error = some msg) ∧
     (∀ e, b.create_mentoring_plan (defaultIssueSelection s).user_profile
          (defaultIssueSelection s).selected_repo_name
          (defaultIssueSelection s).selected_issue_number = .error e →
        (create_mentoring_plan_node b s).error = some ("Error creating plan: " ++ e))) ∧
    ∀ (ns : List NodeName) (n : NodeName),
      runNodes b (n :: ns) s = runNodes b ns (runNode b n s) := by
  obtain ⟨d1, d2, d3, d4, d5, d6, dm, dc, de⟩ := defaultRepoSelection_frame s
  obtain ⟨q1, q2, q3, q4, q5, q6, q7, qm, qc, qe⟩ := defaultIssueSelection_frame s
  refine ⟨⟨?_, ?_, ?_⟩, ⟨?_, ?_, ?_⟩, ⟨?_, ?_, ?_⟩, ⟨?_, ?_, ?_⟩, fun ns n => rfl⟩
  · cases hc : b.find_repositories s.user_profile with
    | ok v => rw [scout_node_ok b s v hc]; simp [h]
    | error e => rw [scout_node_err b s e hc]; simp
  · intro v hv; rw [scout_node_ok b s v hv]; simpa using h
  · intro e he; rw [scout_node_err b s e he]
  · cases hc : b.prepare_onboarding_guide (defaultRepoSelection s).user_profile
        (defaultRepoSelection s).selected_repo_name with
    | ok v => rw [prepare_node_ok b s v hc]; simp [de, h]
    | error e => rw [prepare_node_err b s e hc]; simp
  · intro v hv; rw [prepare_node_ok b s v hv]; simp [de, h]
  · intro e he; rw [prepare_node_err b s e he]
  · cases hc : b.find_suitable_issues s.user_profile s.selected_repo_name with
    | ok v => rw [match_node_ok b s v hc]; simp [h]
    | error e => rw [match_node_err b s e hc]; simp
  · intro v hv; rw [match_node_ok b s v hv]; simpa using h
  · intro e he; rw [match_node_err b s e he]
  · cases hc : b.create_mentoring_plan (defaultIssueSelection s).user_profile
        (defaultIssueSelection s).selected_repo_name
        (defaultIssueSelection s).selected_issue_number with
    | ok v => rw [mentor_node_ok b s v hc]; simp [qe, h]
    | error e => rw [mentor_node_err b s e hc]; simp
  · intro v hv; rw [mentor_node_ok b s v hv]; simp [qe, h]
  · intro e he; rw [mentor_node_err b s e he]

/-- Witness for C4 at concrete inputs: starting from a state already carrying
an error, a failing Scout stage overwrites it with Scout's own message. -/
theorem error_sticky_witness :
    (scout_repositories_node behaviorAllFail stateWithError).error =
      some ("Error scouting repositories: " ++ "scout down") :=
  ((error_sticky behaviorAllFail stateWithError "previous failure" rfl).1).2.2
    "scout down" rfl

/-- C7: from a state with non-empty repositories and `selected_repo_name`
null, the Preparation transition defaults `selected_repo_name` to the first
repository's `repo_name` (and `selected_repo_url` to its `repo_url`), the
Issue-Matcher and Mentor transitions never write those fields, and hence the
defaulted selection survives unchanged through the remainder of the run; an
issue number defaulted by the Mentor stage is the final stage's output, so
it persists trivially. -/
theorem default_selection_persists (b : AgentBehavior) (s : AgentWorkflowState)
    (r : RepositoryMatch) (rs : List RepositoryMatch)
    (h1 : s.repositories = r :: rs) (h2 : s.selected_repo_name = none) :
    (prepare_onboarding_node b s).selected_repo_name = some r.repo_name ∧
    (prepare_onboarding_node b s).selected_repo_url = some r.repo_url ∧
    (∀ t : AgentWorkflowState,
      (match_issues_node b t).selected_repo_name = t.selected_repo_name ∧
      (match_issues_node b t).selected_repo_url = t.selected_repo_url ∧
      (create_mentoring_plan_node b t).selected_repo_name = t.selected_repo_name ∧
      (create_mentoring_plan_node b t).selected_repo_url = t.selected_repo_url) ∧
    (runNodes b [.prepare_onboarding, .match_issues, .create_mentoring_plan] s).selected_repo_name
      = some r.repo_name ∧
    (runNodes b [.prepare_onboarding, .match_issues, .create_mentoring_plan] s).selected_repo_url
      = some r.repo_url := by
  have hd : (defaultRepoSelection s).selected_repo_name = some r.repo_name ∧
      (defaultRepoSelection s).selected_repo_url = some r.repo_url := by
    unfold defaultRepoSelection
    rw [h1]
    simp [h2, optStrTruthy]
  have hpn : (prepare_onboarding_node b s).selected_repo_name = some r.repo_name :=
    (prepare_node_sel b s).1.trans hd.1
  have hpu : (prepare_onboarding_node b s).selected_repo_url = some r.repo_url :=
    (prepare_node_sel b s).2.trans hd.2
  refine ⟨hpn, hpu, fun t =>
    ⟨(match_issues_node_frame b t).2.2.1, (match_issues_node_frame b t).2.2.2.1,
     (create_mentoring_plan_node_frame b t).2.2.1,
     (create_mentoring_plan_node_frame b t).2.2.2.1⟩, ?_, ?_⟩
  · show (create_mentoring_plan_node b (match_issues_node b
      (prepare_onboarding_node b s))).selected_repo_name = some r.repo_name
    rw [(create_mentoring_plan_node_frame b (match_issues_node b
        (prepare_onboarding_node b s))).2.2.1,
      (match_issues_node_frame b (prepare_onboarding_node b s)).2.2.1, hpn]
  · show (create_mentoring_plan_node b (match_issues_node b
      (prepare_onboarding_node b s))).selected_repo_url = some r.repo_url
    rw [(create_mentoring_plan_node_frame b (match_issues_node b
        (prepare_onboarding_node b s))).2.2.2.1,
      (match_issues_node_frame b (prepare_onboarding_node b s)).2.2.2.1, hpu]

/-- Witness for C7 at concrete inputs: after running Preparation,
Issue-Matcher and Mentor on a one-repository state with no selection, the
selection still names the first repository. -/
theorem default_selection_persists_witness :
    (runNodes behaviorAllOk [.prepare_onboarding, .match_issues, .create_mentoring_plan]
        stateRepoOnly).selected_repo_name = some sampleRepo.repo_name :=
  (default_selection_persists behaviorAllOk stateRepoOnly sampleRepo [] rfl rfl).2.2.2.1

/-- C8 counterexample: `"scout_repositories"` is one of the four fixed stage
names, yet the partial-run entry rejects it — no branch of the if/elif chain
in `run_partial_workflow` registers any node for it, so compiling the empty
graph raises a configuration error. -/
theorem run_partial_entry_cex :
    run_partial_workflow behaviorAllOk "scout_repositories" baseState =
      .error "Graph must have an entrypoint" := rfl

/-- C8 (amended): the partial-run entry accepts exactly the three stage
names `"prepare_onboarding"`, `"match_issues"` and
`"create_mentoring_plan"`; calling it with any other name — including the
fourth stage name `"scout_repositories"` — is reported to the caller as a
configuration error before any stage transition executes, and the supplied
state is not mutated (no node function is ever applied to it). -/
theorem run_partial_entry_points (b : AgentBehavior) (name : String)
    (s : AgentWorkflowState)
    (h : name ≠ "prepare_onboarding" ∧ name ≠ "match_issues" ∧
      name ≠ "create_mentoring_plan") :
    run_partial_workflow b name s = .error "Graph must have an entrypoint" ∧
    partialWorkflowNodes name = none ∧
    run_partial_workflow b "prepare_onboarding" s =
      .ok (runNodes b [.prepare_onboarding, .match_issues, .create_mentoring_plan] s) ∧
    run_partial_workflow b "match_issues" s =
      .ok (runNodes b [.match_issues, .create_mentoring_plan] s) ∧
    run_partial_workflow b "create_mentoring_plan" s =
      .ok (runNodes b [.create_mentoring_plan] s) := by
  have hn : partialWorkflowNodes name = none := by
    simp [partialWorkflowNodes, h.1, h.2.1, h.2.2]
  refine ⟨?_, hn, rfl, rfl, rfl⟩
  simp [run_partial_workflow, hn]

/-- Witness for C8's amended statement at the concrete rejected name
`"scout_repositories"`. -/
theorem run_partial_entry_points_witness :
    run_partial_workflow behaviorAllOk "scout_repositories" baseState =
      .error "Graph must have an entrypoint" :=
  (run_partial_entry_points behaviorAllOk "scout_repositories" baseState
    ⟨by decide, by decide, by decide⟩).1

/-! ### C6: the Preparation precondition failure -/

theorem generate_guide_trace (o : GeminiOracle) (rn rd cg : Option String) :
    (generate_guide o rn rd cg).2 = [PrepCall.generate_content] := by
  cases h : o.generate_content with
  | error e => simp [generate_guide, h]
  | ok t =>
      simp only [generate_guide, h]
      split <;> rfl

theorem prepare_guide_none_err (o : GeminiOracle) :
    ∃ e, (prepare_onboarding_guide_run o none).1 = .error e := by
  dsimp only [prepare_onboarding_guide_run, generate_guide]
  cases h : o.generate_content with
  | error e => exact ⟨e, by simp [h]⟩
  | ok t =>
      cases hp : o.parse_response t with
      | ok gj =>
          exact ⟨"1 validation error for ContributionGuide: repo_name must be a string, got None",
            by simp [h, hp, mkContributionGuide]⟩
      | error e =>
          exact ⟨"1 validation error for ContributionGuide: repo_name must be a string, got None",
            by simp [h, hp, mkContributionGuide]⟩

theorem prepare_node_gemini_trace (o : GeminiOracle) (s : AgentWorkflowState) :
    (prepare_onboarding_node_gemini o s).2 =
      [PrepCall.get_readme, PrepCall.get_contributing_guide,
       PrepCall.get_repository_info, PrepCall.generate_content] := by
  dsimp only [prepare_onboarding_node_gemini]
  split <;> simp [prepare_onboarding_guide_run, generate_guide_trace]

/-- C6 (the code evaluated at the claim's precondition): with `repositories`
empty and `selected_repo_name` null, the Preparation transition still
invokes the generative-text provider — `generate_content` is in the
provider-call trace — because the three GitHub tool wrappers swallow their
own faults and `_generate_guide` is reached with a null repository name; a
failure is recorded only afterwards (from the provider call itself or from
the `ContributionGuide` schema rejecting the null `repo_name`), never as a
detected precondition. -/
theorem prepare_precondition_invokes_provider (o : GeminiOracle)
    (s : AgentWorkflowState)
    (h1 : s.repositories = []) (h2 : s.selected_repo_name = none) :
    PrepCall.generate_content ∈ (prepare_onboarding_node_gemini o s).2 ∧
    (prepare_onboarding_node_gemini o s).1.error ≠ none := by
  have hs : defaultRepoSelection s = s := by
    unfold defaultRepoSelection
    rw [h1]
  obtain ⟨e, he⟩ := prepare_guide_none_err o
  constructor
  · rw [prepare_node_gemini_trace o s]
    simp
  · dsimp only [prepare_onboarding_node_gemini]
    rw [hs, h2, he]
    simp

/-- Concrete provider oracle: the GitHub lookups find nothing and the LLM
call succeeds with a parsable response. -/
def sampleOracle : GeminiOracle :=
  { readme := fun _ => none
    contributing := fun _ => none
    repo_info := fun _ => {}
    generate_content := .ok "a json response"
    parse_response := fun _ => .ok
      { setup_instructions := "s"
        project_structure := "p"
        coding_conventions := "c"
        testing_guide := "t"
        contribution_workflow := "w"
        helpful_resources := [] } }

/-- Witness for C6's theorem at concrete inputs: on the empty state the
Preparation transition's provider-call trace contains the Gemini call. -/
theorem prepare_precondition_invokes_provider_witness :
    PrepCall.generate_content ∈ (prepare_onboarding_node_gemini sampleOracle baseState).2 :=
  (prepare_precondition_invokes_provider sampleOracle baseState rfl rfl).1

end CodePathfinder
